import Mathlib

/-!
Shallow embedding of the recruiting-intake backend in src/main.py.

The program is a FastAPI app whose handlers orchestrate three opaque
collaborators: an Airtable-style record store (HTTP create / update /
paginated query), a webhook endpoint, and a PDF text extractor.  Each
handler is embedded as a pure Lean function; the outcomes of the opaque
outbound calls are passed in as explicit parameters, and the outbound
calls the handler issues are returned as an explicit list, so that
claims about which calls were made can be stated and proved.

Python truthiness on strings (used by the source in several guards) is
modeled by the function truthy below.  Machine details that the claims
do not touch (URL strings, HTTP headers, the exact filterByFormula
text) are abstracted: a store query request is modeled by the job_id
value it filters on, the page size, and the optional pagination offset
it carries, which is exactly the data the source puts in params.

Note on the source text: in src/main.py the final two statements of
get_results (the candidates.sort call and the return, lines 299-303)
are dedented to module level, an indentation slip that would make the
module unimportable as written (a return outside a function is a
Python syntax error).  They are modeled here in their evident position
at the end of get_results, which is also how the spec reads them.
-/

namespace CvMatcher

/-- Process configuration, read from the environment in the source
(AIRTABLE_TOKEN, AIRTABLE_BASE_ID, MAKE_WEBHOOK_URL); an unset
variable is None, modeled as none. -/
structure Config where
  AIRTABLE_TOKEN : Option String
  AIRTABLE_BASE_ID : Option String
  MAKE_WEBHOOK_URL : Option String
deriving DecidableEq

/-- Table name constant JOBS_TABLE of the source. -/
def JOBS_TABLE : String := "Jobs"

/-- Table name constant CANDIDATES_TABLE of the source. -/
def CANDIDATES_TABLE : String := "Candidates"

/-- Python truthiness of an optional string: None and the empty string
are falsy, every other string is truthy. -/
def truthy : Option String → Bool
  | none => false
  | some s => s ≠ ""

/-- Embeds _check_airtable_env: the guard condition
(not AIRTABLE_TOKEN or not AIRTABLE_BASE_ID) raises a RuntimeError;
this function returns true when the environment check passes. -/
def check_airtable_env (cfg : Config) : Bool :=
  truthy cfg.AIRTABLE_TOKEN && truthy cfg.AIRTABLE_BASE_ID

/-- The RuntimeError message raised by _check_airtable_env. -/
def envErrorMsg : String :=
  "Les variables d'environnement AIRTABLE_TOKEN et AIRTABLE_BASE_ID " ++
  "doivent être définies pour utiliser Airtable."

/-- Outcome of a request handler at the HTTP boundary: a normal JSON
response, a raised HTTPException with status and detail, or an
exception the handler does not catch (surfaced by the framework as a
generic 500). -/
inductive Outcome (α : Type) where
  | ok (val : α)
  | httpError (status : Nat) (detail : String)
  | unhandled (msg : String)
deriving DecidableEq

/-- A record returned by the store to a create or update call; the
source reads its id field (record.get returns None when absent). -/
structure StoreRecord where
  id : Option String
deriving DecidableEq

/-- The store HTTP response to a create or update call, as the source
consumes it: the ok flag, the status code and body text used to build
the error message, and the decoded record on success. -/
structure StoreHttpResponse where
  ok : Bool
  status : Nat
  text : String
  record : StoreRecord
deriving DecidableEq

/-- An outbound record-creation call: the table and the fields payload,
exactly as passed to airtable_create_record. -/
structure CreateCall where
  table : String
  fields : List (String × String)
deriving DecidableEq

/-- An outbound record-update call: table, record id and fields payload,
exactly as passed to airtable_update_record. -/
structure UpdateCall where
  table : String
  record_id : String
  fields : List (String × String)
deriving DecidableEq

/-- Embeds airtable_create_record: checks the environment (RuntimeError
before any network call when it fails), performs one POST, and either
returns the decoded record or raises RuntimeError built from the
status and body.  Returns the Except result together with the list of
HTTP calls actually issued. -/
def airtable_create_record (cfg : Config) (table : String)
    (fields : List (String × String)) (resp : StoreHttpResponse) :
    Except String StoreRecord × List CreateCall :=
  if check_airtable_env cfg then
    if resp.ok then
      (Except.ok resp.record, [⟨table, fields⟩])
    else
      (Except.error ("Airtable error " ++ toString resp.status ++ ": " ++ resp.text),
        [⟨table, fields⟩])
  else
    (Except.error envErrorMsg, [])

/-- Embeds airtable_update_record: same shape as create but a PATCH to
a record id. -/
def airtable_update_record (cfg : Config) (table : String) (record_id : String)
    (fields : List (String × String)) (resp : StoreHttpResponse) :
    Except String StoreRecord × List UpdateCall :=
  if check_airtable_env cfg then
    if resp.ok then
      (Except.ok resp.record, [⟨table, record_id, fields⟩])
    else
      (Except.error ("Airtable error " ++ toString resp.status ++ ": " ++ resp.text),
        [⟨table, record_id, fields⟩])
  else
    (Except.error envErrorMsg, [])

/-- Embeds extract_text_from_pdf_bytes.  The opaque PDF library is
modeled by the per-page text it yields: a parsed document is the list
of page texts, and the source accumulates text += page.get_text() over
the pages in order. -/
def extract_text_from_pdf_bytes (pages : List String) : String :=
  pages.foldl (fun text page => text ++ page) ""

/-- Response of POST /create-job. -/
structure CreateJobResp where
  status : String
  job_id : String
  airtable_id : String
deriving DecidableEq

/-- Embeds the create_job handler.  now is the wall-clock timestamp in
seconds (int(datetime.utcnow().timestamp())); title is accepted but
never used.  A RuntimeError from the store layer is not caught here,
and a missing id key on the returned record would be an uncaught
KeyError. -/
def create_job (cfg : Config) (title : Option String) (description : String)
    (now : Nat) (resp : StoreHttpResponse) :
    Outcome CreateJobResp × List CreateCall :=
  let job_id := "JOB-" ++ toString now
  let r := airtable_create_record cfg JOBS_TABLE
    [("job_id", job_id), ("description_raw", description)] resp
  match r.1 with
  | Except.error e => (Outcome.unhandled e, r.2)
  | Except.ok record =>
    match record.id with
    | none => (Outcome.unhandled "KeyError: id", r.2)
    | some rid => (Outcome.ok ⟨"ok", job_id, rid⟩, r.2)

/-- Response of POST /upload-cv. -/
structure UploadCvResp where
  status : String
  candidate_id : String
deriving DecidableEq

/-- Embeds the upload_cv handler: extracts the PDF text and creates a
candidate record with the four fields the source writes. -/
def upload_cv (cfg : Config) (job_id : String) (file_name : String)
    (pages : List String) (resp : StoreHttpResponse) :
    Outcome UploadCvResp × List CreateCall :=
  let text := extract_text_from_pdf_bytes pages
  let r := airtable_create_record cfg CANDIDATES_TABLE
    [("job_id", job_id), ("file_name", file_name),
     ("cv_text_raw", text), ("analysis_status", "pending")] resp
  match r.1 with
  | Except.error e => (Outcome.unhandled e, r.2)
  | Except.ok record =>
    match record.id with
    | none => (Outcome.unhandled "KeyError: id", r.2)
    | some rid => (Outcome.ok ⟨"ok", rid⟩, r.2)

/-- A candidate row as get_results materializes it: rec.get of the id
plus fields.get of the five projected fields; every lookup may yield
None.  The score is the numeric field written externally. -/
structure CandidateRec where
  id : Option String
  file_name : Option String
  score : Option Int
  decision : Option String
  analysis_status : Option String
  analysis_explanation : Option String
deriving DecidableEq

/-- One store response page in the get_results pagination loop: the
records of the page and the optional pagination offset announcing a
further page. -/
structure Page where
  records : List CandidateRec
  offset : Option String
deriving DecidableEq

/-- One outbound store query request issued by get_results: the job_id
the filterByFormula selects on, the pageSize, and the offset parameter
when one is carried (the params dict of the source). -/
structure QueryReq where
  filterJobId : String
  pageSize : Nat
  offset : Option String
deriving DecidableEq

/-- The sort key of the final candidates.sort call:
c.get("score") or 0, an absent score counting as 0. -/
def scoreKey (c : CandidateRec) : Int :=
  c.score.getD 0

/-- The ordering of candidates.sort(key=..., reverse=True): a precedes
b when the key of a is at least the key of b; Python sorted with
reverse=True is the stable descending sort by the key. -/
def scoreGe (a b : CandidateRec) : Prop :=
  scoreKey b ≤ scoreKey a

instance : DecidableRel scoreGe := fun a b =>
  inferInstanceAs (Decidable (scoreKey b ≤ scoreKey a))

instance : IsTotal CandidateRec scoreGe :=
  ⟨fun a b => (le_total (scoreKey b) (scoreKey a)).imp id id⟩

instance : IsTrans CandidateRec scoreGe :=
  ⟨fun _ _ _ hab hbc => le_trans hbc hab⟩

/-- The stable descending sort performed by
candidates.sort(key=lambda c: (c.get("score") or 0), reverse=True).
A stable sort is determined extensionally by its order, so the
insertion sort realizes exactly the CPython stable sort here. -/
def sortCandidates (l : List CandidateRec) : List CandidateRec :=
  List.insertionSort scoreGe l

/-- The while-True pagination loop of get_results, driven by the
sequence of pages the store answers with.  cur is the offset the next
request carries (none on the first iteration; the source only sets
params offset when the offset is truthy).  Returns the accumulated
records, the offset parameter of each request issued in order, and
whether the loop reached its break (it breaks when the page offset is
falsy; the false flag marks the model running out of store pages while
the loop still wants more, a case outside every claim). -/
def getResultsLoop (cur : Option String) :
    List Page → List CandidateRec × List (Option String) × Bool
  | [] => ([], [], false)
  | p :: ps =>
    if truthy p.offset then
      let rest := getResultsLoop p.offset ps
      (p.records ++ rest.1, cur :: rest.2.1, rest.2.2)
    else
      (p.records, [cur], true)

/-- Embeds the get_results handler: the empty-job_id guard (400 before
any network call), the environment check, the pagination loop, and the
final stable sort by descending score.  The absent query parameter is
modeled as the empty string at the handler boundary (both are falsy to
the guard).  pages is the sequence of successful store responses. -/
def get_results (cfg : Config) (job_id : String) (pages : List Page) :
    Outcome (List CandidateRec) × List QueryReq :=
  if job_id = "" then
    (Outcome.httpError 400 "job_id is required", [])
  else if check_airtable_env cfg then
    let run := getResultsLoop none pages
    let reqs := run.2.1.map (fun o => (⟨job_id, 100, o⟩ : QueryReq))
    if run.2.2 then
      (Outcome.ok (sortCandidates run.1), reqs)
    else
      (Outcome.unhandled "store page sequence exhausted", reqs)
  else
    (Outcome.unhandled envErrorMsg, [])

/-- Response of POST /update-decision; airtable_id is record.get of the
id, so possibly None. -/
structure UpdateDecisionResp where
  status : String
  airtable_id : Option String
deriving DecidableEq

/-- Embeds the update_decision handler: rejects any decision outside
yes and no with a 400 before any store interaction, maps yes to OUI
and no to NON, updates the candidate record with the single decision
field, and surfaces a store-layer RuntimeError as a 500. -/
def update_decision (cfg : Config) (candidate_id : String) (decision : String)
    (resp : StoreHttpResponse) :
    Outcome UpdateDecisionResp × List UpdateCall :=
  if decision = "yes" ∨ decision = "no" then
    let airtable_value := if decision = "yes" then "OUI" else "NON"
    let r := airtable_update_record cfg CANDIDATES_TABLE candidate_id
      [("decision", airtable_value)] resp
    match r.1 with
    | Except.error e => (Outcome.httpError 500 e, r.2)
    | Except.ok record => (Outcome.ok ⟨"ok", record.id⟩, r.2)
  else
    (Outcome.httpError 400 "decision must be 'yes' or 'no'", [])

/-- The fields dict of a Jobs record as trigger_analysis reads it:
records[0].get("fields", {}).get("description_raw", ""). -/
structure JobFields where
  description_raw : Option String
deriving DecidableEq

/-- One outbound webhook POST: the target URL and the JSON payload
fields. -/
structure WebhookCall where
  url : String
  job_id : String
  description_raw : String
deriving DecidableEq

/-- Embeds the trigger_analysis handler.  store is the outcome of the
single filtered Jobs query (an error models any requests exception,
caught and turned into a 502); webhookOk tells whether the webhook
POST succeeds.  The webhook calls actually issued are returned. -/
def trigger_analysis (cfg : Config) (job_id : String)
    (store : Except Unit (List JobFields)) (webhookOk : Bool) :
    Outcome String × List WebhookCall :=
  if truthy cfg.MAKE_WEBHOOK_URL then
    if check_airtable_env cfg then
      match store with
      | Except.error _ =>
        (Outcome.httpError 502 "Error while fetching job from Airtable.", [])
      | Except.ok records =>
        match records with
        | [] =>
          (Outcome.httpError 404 ("No job found in Airtable for job_id=" ++ job_id), [])
        | r :: _ =>
          let description_raw := r.description_raw.getD ""
          let call : WebhookCall :=
            ⟨cfg.MAKE_WEBHOOK_URL.getD "", job_id, description_raw⟩
          if webhookOk then
            (Outcome.ok "ok", [call])
          else
            (Outcome.httpError 502 "Error while calling Make webhook.", [call])
    else
      (Outcome.unhandled envErrorMsg, [])
  else
    (Outcome.httpError 500 "MAKE_WEBHOOK_URL is not configured on the server.", [])

/-- Response of GET /debug-env: the first four characters of the token,
its length, and the base id (None entries when the token is unset or
empty, per the conditional expressions of the source). -/
structure DebugEnvResp where
  tokenFirst4 : Option String
  tokenLen : Option Nat
  baseId : Option String
deriving DecidableEq

/-- Embeds the debug_env handler. -/
def debug_env (cfg : Config) : DebugEnvResp :=
  ⟨if truthy cfg.AIRTABLE_TOKEN then some ((cfg.AIRTABLE_TOKEN.getD "").take 4) else none,
   if truthy cfg.AIRTABLE_TOKEN then some (cfg.AIRTABLE_TOKEN.getD "").length else none,
   cfg.AIRTABLE_BASE_ID⟩

/-! Concrete fixtures used by the witness theorems. -/

/-- A fully configured environment. -/
def cfg0 : Config := ⟨some "patTokenValue", some "appBaseId", some "hookUrl"⟩

/-- A successful store response whose record carries an id. -/
def resp0 : StoreHttpResponse := ⟨true, 200, "", ⟨some "rec123"⟩⟩

/-- A candidate record with no score yet. -/
def recA : CandidateRec := ⟨some "recA", some "a.pdf", none, none, some "pending", none⟩

/-- A candidate record with score 5. -/
def recB : CandidateRec := ⟨some "recB", some "b.pdf", some 5, none, some "done", none⟩

/-- A candidate record with score 10. -/
def recC : CandidateRec := ⟨some "recC", some "c.pdf", some 10, none, some "done", none⟩

/-- A first store page of 100 score-less records announcing cursor abc. -/
def pageA : Page := ⟨List.replicate 100 recA, some "abc"⟩

/-- A final store page of 5 records of score 10 with no cursor. -/
def pageB : Page := ⟨List.replicate 5 recC, none⟩

end CvMatcher

namespace CvMatcher

/-! ### Helper lemmas -/

/-- A string has length zero exactly when it is empty. -/
lemma string_length_eq_zero_iff (s : String) : s.length = 0 ↔ s = "" := by
  cases s with
  | mk data =>
    rw [String.ext_iff]
    simp [List.length_eq_zero]

/-- The store calls issued by update_decision, in closed form. -/
lemma update_decision_calls (cfg : Config) (cid d : String)
    (resp : StoreHttpResponse) :
    (update_decision cfg cid d resp).2 =
      if (d = "yes" ∨ d = "no") ∧ check_airtable_env cfg = true then
        [⟨CANDIDATES_TABLE, cid, [("decision", if d = "yes" then "OUI" else "NON")]⟩]
      else [] := by
  unfold update_decision airtable_update_record
  by_cases hd : d = "yes" ∨ d = "no" <;>
    by_cases he : check_airtable_env cfg = true <;>
      by_cases ho : resp.ok = true <;>
        simp [hd, he, ho]

/-- Closed form of the pagination loop on a page sequence whose last
page carries a falsy cursor and whose earlier pages all carry truthy
cursors: every record of every page is accumulated in page order, the
request sequence starts from the given cursor and then carries each
returned cursor, and the loop reaches its break. -/
lemma getResultsLoop_spec (cur : Option String) (mids : List Page) (lastPage : Page)
    (hmid : ∀ p ∈ mids, truthy p.offset = true)
    (hlast : truthy lastPage.offset = false) :
    getResultsLoop cur (mids ++ [lastPage]) =
      (((mids ++ [lastPage]).map Page.records).flatten,
        cur :: mids.map Page.offset, true) := by
  induction mids generalizing cur with
  | nil => simp [getResultsLoop, hlast]
  | cons p ps ih =>
    have hp : truthy p.offset = true := hmid p (List.mem_cons_self p ps)
    have ihp := ih p.offset (fun q hq => hmid q (List.mem_cons_of_mem p hq))
    simp [getResultsLoop, hp, ihp]

/-- Inserting into a list commutes with filtering on a fixed key: the
inserted element lands in front of the equal-key block, so the
filtered sublist gains it at the head exactly when its key matches. -/
lemma filter_orderedInsert_scoreGe (a : CandidateRec) (l : List CandidateRec)
    (k : Int) :
    (List.orderedInsert scoreGe a l).filter (fun c => decide (scoreKey c = k)) =
      if scoreKey a = k then
        a :: l.filter (fun c => decide (scoreKey c = k))
      else l.filter (fun c => decide (scoreKey c = k)) := by
  induction l with
  | nil =>
    by_cases hka : scoreKey a = k <;> simp [List.orderedInsert, hka]
  | cons b t ih =>
    by_cases hab : scoreGe a b
    · by_cases hka : scoreKey a = k <;>
        simp [List.orderedInsert, hab, List.filter_cons, hka]
    · have hlt : scoreKey a < scoreKey b := lt_of_not_le hab
      by_cases hka : scoreKey a = k <;> by_cases hkb : scoreKey b = k
      · exact absurd (hka.trans hkb.symm) (ne_of_lt hlt)
      · simp [List.orderedInsert, hab, List.filter_cons, hka, hkb, ih]
      · simp [List.orderedInsert, hab, List.filter_cons, hka, hkb, ih]
      · simp [List.orderedInsert, hab, List.filter_cons, hka, hkb, ih]

/-- Stability of the final sort: for every key value, the subsequence
of candidates with that key is unchanged by the sort, so ties keep
the original store order. -/
lemma filter_sortCandidates (l : List CandidateRec) (k : Int) :
    (sortCandidates l).filter (fun c => decide (scoreKey c = k)) =
      l.filter (fun c => decide (scoreKey c = k)) := by
  induction l with
  | nil => rfl
  | cons a t ih =>
    by_cases hka : scoreKey a = k <;>
      simp [sortCandidates, List.insertionSort, filter_orderedInsert_scoreGe,
        List.filter_cons, hka] <;>
      simpa [sortCandidates] using ih

/-! ### Claims -/

/-- Claim C7: GET /results invoked with no job_id query parameter (the
falsy empty value at the handler boundary) returns HTTP 400 with
detail job_id is required, and issues no outbound store query. -/
theorem claim_C7 (cfg : Config) (pages : List Page) :
    get_results cfg "" pages =
      (Outcome.httpError 400 "job_id is required", []) := rfl

/-- Claim C5: update-decision rejects any decision outside the literal
tokens yes and no with HTTP 400 and no store call; decision yes
persists the single store value OUI and decision no persists NON. -/
theorem claim_C5 :
    (∀ (cfg : Config) (cid d : String) (resp : StoreHttpResponse),
      d ≠ "yes" → d ≠ "no" →
      update_decision cfg cid d resp =
        (Outcome.httpError 400 "decision must be 'yes' or 'no'", [])) ∧
    (∀ (cfg : Config) (cid : String) (resp : StoreHttpResponse),
      check_airtable_env cfg = true →
      (update_decision cfg cid "yes" resp).2 =
        [⟨CANDIDATES_TABLE, cid, [("decision", "OUI")]⟩]) ∧
    (∀ (cfg : Config) (cid : String) (resp : StoreHttpResponse),
      check_airtable_env cfg = true →
      (update_decision cfg cid "no" resp).2 =
        [⟨CANDIDATES_TABLE, cid, [("decision", "NON")]⟩]) := by
  refine ⟨fun cfg cid d resp h1 h2 => ?_, fun cfg cid resp he => ?_,
    fun cfg cid resp he => ?_⟩
  · unfold update_decision
    rw [if_neg]
    rintro (h | h) <;> [exact h1 h; exact h2 h]
  · rw [update_decision_calls]
    simp [he]
  · rw [update_decision_calls]
    simp [he]

/-- Claim C5 witness at concrete inputs. -/
theorem claim_C5_witness :
    ("maybe" ≠ "yes" ∧ "maybe" ≠ "no" ∧ check_airtable_env cfg0 = true) ∧
    update_decision cfg0 "recZ" "maybe" resp0 =
      (Outcome.httpError 400 "decision must be 'yes' or 'no'", []) ∧
    (update_decision cfg0 "recZ" "yes" resp0).2 =
      [⟨CANDIDATES_TABLE, "recZ", [("decision", "OUI")]⟩] ∧
    (update_decision cfg0 "recZ" "no" resp0).2 =
      [⟨CANDIDATES_TABLE, "recZ", [("decision", "NON")]⟩] :=
  ⟨⟨by decide, by decide, by decide⟩,
    claim_C5.1 cfg0 "recZ" "maybe" resp0 (by decide) (by decide),
    claim_C5.2.1 cfg0 "recZ" resp0 (by decide),
    claim_C5.2.2 cfg0 "recZ" resp0 (by decide)⟩

/-- Claim C9: every store update issued by update-decision carries a
fields payload whose key list is exactly the single key decision. -/
theorem claim_C9 (cfg : Config) (cid d : String) (resp : StoreHttpResponse)
    (c : UpdateCall) (hc : c ∈ (update_decision cfg cid d resp).2) :
    c.fields.map Prod.fst = ["decision"] := by
  rw [update_decision_calls] at hc
  by_cases h : (d = "yes" ∨ d = "no") ∧ check_airtable_env cfg = true
  · rw [if_pos h] at hc
    rw [List.mem_singleton] at hc
    subst hc
    rfl
  · rw [if_neg h] at hc
    exact absurd hc (List.not_mem_nil c)

/-- Claim C9 witness at a concrete call. -/
theorem claim_C9_witness :
    (⟨CANDIDATES_TABLE, "recZ", [("decision", "OUI")]⟩ : UpdateCall) ∈
      (update_decision cfg0 "recZ" "yes" resp0).2 ∧
    (⟨CANDIDATES_TABLE, "recZ", [("decision", "OUI")]⟩ : UpdateCall).fields.map
      Prod.fst = ["decision"] :=
  ⟨by decide, claim_C9 cfg0 "recZ" "yes" resp0 _ (by decide)⟩

/-- Claim C6: when the webhook URL and the store environment are
configured, trigger-analysis for a job_id whose exact-match lookup
returns zero records responds HTTP 404 with a detail naming the
job_id, and issues no webhook call. -/
theorem claim_C6 (cfg : Config) (jid : String) (wb : Bool)
    (hw : truthy cfg.MAKE_WEBHOOK_URL = true)
    (he : check_airtable_env cfg = true) :
    trigger_analysis cfg jid (Except.ok []) wb =
      (Outcome.httpError 404 ("No job found in Airtable for job_id=" ++ jid),
        []) := by
  unfold trigger_analysis
  rw [hw, he]
  rfl

/-- Claim C6 witness at concrete inputs. -/
theorem claim_C6_witness :
    (truthy cfg0.MAKE_WEBHOOK_URL = true ∧ check_airtable_env cfg0 = true) ∧
    trigger_analysis cfg0 "JOB-42" (Except.ok []) true =
      (Outcome.httpError 404 "No job found in Airtable for job_id=JOB-42", []) :=
  ⟨⟨by decide, by decide⟩, claim_C6 cfg0 "JOB-42" true (by decide) (by decide)⟩

/-- Claim C10: the debug-env response depends on the bearer credential
only through its first four characters and its length (so at most that
much of the credential can be revealed, never the full string), and an
unset credential yields null entries. -/
theorem claim_C10 :
    (∀ (t₁ t₂ b w : Option String),
      t₁.map (fun s => s.take 4) = t₂.map (fun s => s.take 4) →
      t₁.map String.length = t₂.map String.length →
      debug_env ⟨t₁, b, w⟩ = debug_env ⟨t₂, b, w⟩) ∧
    (∀ b w : Option String, debug_env ⟨none, b, w⟩ = ⟨none, none, b⟩) := by
  refine ⟨fun t₁ t₂ b w h4 hl => ?_, fun b w => rfl⟩
  cases t₁ with
  | none =>
    cases t₂ with
    | none => rfl
    | some s₂ => simp at h4
  | some s₁ =>
    cases t₂ with
    | none => simp at h4
    | some s₂ =>
      simp only [Option.map_some', Option.some.injEq] at h4 hl
      have hempty : (s₁ = "") ↔ (s₂ = "") := by
        rw [← string_length_eq_zero_iff, ← string_length_eq_zero_iff, hl]
      by_cases h2 : s₂ = ""
      · have h1 : s₁ = "" := hempty.mpr h2
        simp [debug_env, truthy, h1, h2]
      · have h1 : ¬s₁ = "" := fun hh => h2 (hempty.mp hh)
        simp [debug_env, truthy, h1, h2, h4, hl]

/-- Claim C10 witness: two credentials agreeing on the first four
characters and the length produce identical responses. -/
theorem claim_C10_witness :
    ((some "patAXXXX" : Option String).map (fun s => s.take 4) =
      (some "patAYYYY" : Option String).map (fun s => s.take 4) ∧
     (some "patAXXXX" : Option String).map String.length =
      (some "patAYYYY" : Option String).map String.length) ∧
    debug_env ⟨some "patAXXXX", some "base", none⟩ =
      debug_env ⟨some "patAYYYY", some "base", none⟩ :=
  ⟨⟨by decide, by decide⟩,
    claim_C10.1 (some "patAXXXX") (some "patAYYYY") (some "base") none
      (by decide) (by decide)⟩

/-- Claim C3: with the environment configured and the store answering
a record with a nonempty id, create-job responds ok with a job_id of
the shape JOB- followed by a decimal number and with the store record
id, and the single persisted record holds description_raw equal to the
input description and carries no title key. -/
theorem claim_C3 (cfg : Config) (title : Option String) (description : String)
    (now : Nat) (resp : StoreHttpResponse) (rid : String)
    (henv : check_airtable_env cfg = true) (hok : resp.ok = true)
    (hid : resp.record.id = some rid) (hne : rid ≠ "") :
    create_job cfg title description now resp =
      (Outcome.ok ⟨"ok", "JOB-" ++ toString now, rid⟩,
        [⟨JOBS_TABLE,
          [("job_id", "JOB-" ++ toString now),
           ("description_raw", description)]⟩]) ∧
    (∃ n : Nat, "JOB-" ++ toString now = "JOB-" ++ toString n) ∧
    rid ≠ "" ∧
    "title" ∉
      ([("job_id", "JOB-" ++ toString now),
        ("description_raw", description)].map Prod.fst) := by
  refine ⟨?_, ⟨now, rfl⟩, hne, by simp⟩
  unfold create_job airtable_create_record
  simp [henv, hok, hid]

/-- Claim C3 witness at concrete inputs. -/
theorem claim_C3_witness :
    (check_airtable_env cfg0 = true ∧ resp0.ok = true ∧
      resp0.record.id = some "rec123" ∧ "rec123" ≠ "") ∧
    (create_job cfg0 (some "Backend dev") "great job" 1700000000 resp0 =
      (Outcome.ok ⟨"ok", "JOB-" ++ toString 1700000000, "rec123"⟩,
        [⟨JOBS_TABLE,
          [("job_id", "JOB-" ++ toString 1700000000),
           ("description_raw", "great job")]⟩]) ∧
     (∃ n : Nat, "JOB-" ++ toString 1700000000 = "JOB-" ++ toString n) ∧
     "rec123" ≠ "" ∧
     "title" ∉
       ([("job_id", "JOB-" ++ toString 1700000000),
         ("description_raw", "great job")].map Prod.fst)) :=
  ⟨⟨by decide, by decide, by decide, by decide⟩,
    claim_C3 cfg0 (some "Backend dev") "great job" 1700000000 resp0 "rec123"
      (by decide) (by decide) (by decide) (by decide)⟩

/-- Claim C4: with the environment configured, upload-cv persists
exactly one candidate record whose cv_text_raw is the page-ordered
concatenation of the per-page text produced by the extractor (which
itself equals String.join of the page texts) and whose analysis_status
is pending. -/
theorem claim_C4 (cfg : Config) (jid fn : String) (pages : List String)
    (resp : StoreHttpResponse) (henv : check_airtable_env cfg = true) :
    (upload_cv cfg jid fn pages resp).2 =
      [⟨CANDIDATES_TABLE,
        [("job_id", jid), ("file_name", fn),
         ("cv_text_raw", extract_text_from_pdf_bytes pages),
         ("analysis_status", "pending")]⟩] ∧
    extract_text_from_pdf_bytes pages = String.join pages := by
  refine ⟨?_, rfl⟩
  unfold upload_cv airtable_create_record
  by_cases hok : resp.ok = true
  · cases hid : resp.record.id <;> simp [henv, hok, hid]
  · simp [henv, hok]

/-- Claim C4 witness: a two-page document with text Hello and World. -/
theorem claim_C4_witness :
    check_airtable_env cfg0 = true ∧
    ((upload_cv cfg0 "JOB-7" "cv.pdf" ["Hello ", "World"] resp0).2 =
      [⟨CANDIDATES_TABLE,
        [("job_id", "JOB-7"), ("file_name", "cv.pdf"),
         ("cv_text_raw", extract_text_from_pdf_bytes ["Hello ", "World"]),
         ("analysis_status", "pending")]⟩] ∧
     extract_text_from_pdf_bytes ["Hello ", "World"] =
       String.join ["Hello ", "World"]) :=
  ⟨by decide, claim_C4 cfg0 "JOB-7" "cv.pdf" ["Hello ", "World"] resp0 (by decide)⟩

/-- Claim C2: a job whose single store page holds three candidates of
scores None, 5, 10 is returned with all three candidates (whatever
their analysis_status and other fields) ordered 10, 5, None, the sort
treating an absent score as 0; moreover the sort is stable (for every
key value the subsequence of candidates carrying that key is exactly
the store subsequence) and its result is sorted descending by key. -/
theorem claim_C2 :
    (∀ (cfg : Config) (jid : String) (r₁ r₂ r₃ : CandidateRec),
      check_airtable_env cfg = true → jid ≠ "" →
      r₁.score = none → r₂.score = some 5 → r₃.score = some 10 →
      get_results cfg jid [⟨[r₁, r₂, r₃], none⟩] =
        (Outcome.ok [r₃, r₂, r₁], [⟨jid, 100, none⟩])) ∧
    (∀ (l : List CandidateRec) (k : Int),
      (sortCandidates l).filter (fun c => decide (scoreKey c = k)) =
        l.filter (fun c => decide (scoreKey c = k))) ∧
    (∀ l : List CandidateRec, List.Sorted scoreGe (sortCandidates l)) := by
  refine ⟨fun cfg jid r₁ r₂ r₃ henv hjid h₁ h₂ h₃ => ?_,
    filter_sortCandidates, fun l => List.sorted_insertionSort scoreGe l⟩
  simp [get_results, hjid, henv, getResultsLoop, truthy, sortCandidates,
    List.insertionSort, List.orderedInsert, scoreGe, scoreKey, h₁, h₂, h₃]

/-- Claim C2 witness at three concrete candidate records. -/
theorem claim_C2_witness :
    (check_airtable_env cfg0 = true ∧ ("JOB-42" : String) ≠ "" ∧
      recA.score = none ∧ recB.score = some 5 ∧ recC.score = some 10) ∧
    get_results cfg0 "JOB-42" [⟨[recA, recB, recC], none⟩] =
      (Outcome.ok [recC, recB, recA], [⟨"JOB-42", 100, none⟩]) :=
  ⟨⟨by decide, by decide, by decide, by decide, by decide⟩,
    claim_C2.1 cfg0 "JOB-42" recA recB recC (by decide) (by decide)
      (by decide) (by decide) (by decide)⟩

/-- Claim C8: on any finite store page sequence whose last page has a
falsy cursor and whose earlier pages each return a cursor, the
pagination loop terminates at its break (the flag of the result),
carries each returned cursor into the next request (the request list
is the initial absent offset followed by the cursors of the non-final
pages), and accumulates every record of every page in order with no
loss. -/
theorem claim_C8 (mids : List Page) (lastPage : Page)
    (hmid : ∀ p ∈ mids, truthy p.offset = true)
    (hlast : truthy lastPage.offset = false) :
    getResultsLoop none (mids ++ [lastPage]) =
      (((mids ++ [lastPage]).map Page.records).flatten,
        none :: mids.map Page.offset, true) :=
  getResultsLoop_spec none mids lastPage hmid hlast

/-- Claim C8 witness on the concrete two-page sequence. -/
theorem claim_C8_witness :
    ((∀ p ∈ [pageA], truthy p.offset = true) ∧ truthy pageB.offset = false) ∧
    getResultsLoop none ([pageA] ++ [pageB]) =
      ((([pageA] ++ [pageB]).map Page.records).flatten,
        none :: [pageA].map Page.offset, true) :=
  ⟨⟨by decide, by decide⟩, claim_C8 [pageA] pageB (by decide) (by decide)⟩

/-- Claim C1 counterexample: with page one holding 100 score-less
records and announcing cursor abc and page two holding 5 records of
score 10, the handler does not return the records in page order: the
final descending score sort moves the page-two records to the front,
so the claim as stated (the 105 records come back in page order)
fails at this input. -/
theorem claim_C1_counterexample :
    (get_results cfg0 "JOB-42" [pageA, pageB]).1 ≠
      Outcome.ok (pageA.records ++ pageB.records) := by
  decide

/-- Claim C1 as amended: for every store response sequence of two
pages (page one: 100 records plus cursor abc; page two: 5 records, no
cursor), the handler issues exactly two outbound query calls, the
second carrying the cursor abc, and returns exactly 105 merged
records, accumulated in page order with no record lost or duplicated
before the final descending stable score sort (the response list is a
permutation of the page-ordered merge). -/
theorem claim_C1 (cfg : Config) (jid : String) (p₁ p₂ : Page)
    (henv : check_airtable_env cfg = true) (hjid : jid ≠ "")
    (h1n : p₁.records.length = 100) (h1o : p₁.offset = some "abc")
    (h2n : p₂.records.length = 5) (h2o : p₂.offset = none) :
    ∃ cs : List CandidateRec,
      get_results cfg jid [p₁, p₂] =
        (Outcome.ok cs, [⟨jid, 100, none⟩, ⟨jid, 100, some "abc"⟩]) ∧
      cs.Perm (p₁.records ++ p₂.records) ∧
      cs.length = 105 := by
  refine ⟨sortCandidates (p₁.records ++ p₂.records), ?_, ?_, ?_⟩
  · simp [get_results, hjid, henv, getResultsLoop, h1o, h2o, truthy]
  · exact List.perm_insertionSort scoreGe _
  · simp [sortCandidates, h1n, h2n]

/-- Claim C1 witness on the concrete two-page sequence. -/
theorem claim_C1_witness :
    (check_airtable_env cfg0 = true ∧ ("JOB-42" : String) ≠ "" ∧
      pageA.records.length = 100 ∧ pageA.offset = some "abc" ∧
      pageB.records.length = 5 ∧ pageB.offset = none) ∧
    (∃ cs : List CandidateRec,
      get_results cfg0 "JOB-42" [pageA, pageB] =
        (Outcome.ok cs,
          [⟨"JOB-42", 100, none⟩, ⟨"JOB-42", 100, some "abc"⟩]) ∧
      cs.Perm (pageA.records ++ pageB.records) ∧
      cs.length = 105) :=
  ⟨⟨by decide, by decide, by decide, by decide, by decide, by decide⟩,
    claim_C1 cfg0 "JOB-42" pageA pageB (by decide) (by decide) (by decide)
      (by decide) (by decide) (by decide)⟩

end CvMatcher
